import Mathlib

/-!
Verification of `src/model/positional_bucket.py` (repository `Lattice`).

The repository contains a single pure function, `compute_positional_bucket`,
that classifies every (query token, key token) pair of a batched sequence
into a relative-position bucket for table-structured attention.  Tensors of
shape (batch, seq) holding the token attributes are embedded as
`List (List ℚ)` (the source stores the categorical attributes in float
tensors; rationals model the exactly representable values involved), and
the output tensor of shape (batch, seq, seq) as `List (List (List ℤ))`.

All mask construction in the source (outer products via `torch.bmm` of 0/1
float vectors compared with 0.5, broadcasted absolute differences, weighted
sums of boolean masks) acts independently on each pair (i, j) of positions,
so it is embedded pointwise: boolean mask entries become decidable
propositions, `Tensor.float()` on a mask becomes `maskRat`, the promotion
of a mask to integers under multiplication by an integer weight becomes
`maskInt`, and the whole weighted sum becomes `bucketEntry`, applied over
the batch/position structure by `List.zipWith3`.
-/

namespace Lattice

/-- Value of a boolean mask entry after `Tensor.float()`:
`True` becomes `1.0`, `False` becomes `0.0`. -/
def maskRat (p : Prop) [Decidable p] : ℚ := if p then 1 else 0

/-- Value of a boolean mask entry after promotion to an integer tensor, as
happens when a mask is multiplied by an integer weight in the source. -/
def maskInt (p : Prop) [Decidable p] : ℤ := if p then 1 else 0

/-- Per-token role test of the source:
`is_meta = torch.logical_and(type_ids < 2.5, type_ids > 0.5)`. -/
def is_meta (t : ℚ) : Prop := t < 5/2 ∧ t > 1/2

instance (t : ℚ) : Decidable (is_meta t) := by unfold is_meta; infer_instance

/-- Per-token role test of the source: `is_cell = (type_ids == 3)`. -/
def is_cell (t : ℚ) : Prop := t = 3

instance (t : ℚ) : Decidable (is_cell t) := by unfold is_cell; infer_instance

/-- Entry (i, j) of `meta_mask`: the outer product (`torch.bmm` of the column
vector `is_meta.float()` with the row vector `is_meta.float()`) compared
against `0.5`. -/
def meta_mask (tq tk : ℚ) : Prop :=
  maskRat (is_meta tq) * maskRat (is_meta tk) > 1/2

instance (tq tk : ℚ) : Decidable (meta_mask tq tk) := by
  unfold meta_mask; infer_instance

/-- Entry (i, j) of `cell_mask`: outer product of `is_cell.float()` with
itself, compared against `0.5`. -/
def cell_mask (tq tk : ℚ) : Prop :=
  maskRat (is_cell tq) * maskRat (is_cell tk) > 1/2

instance (tq tk : ℚ) : Decidable (cell_mask tq tk) := by
  unfold cell_mask; infer_instance

/-- Entry (i, j) of `meta_to_cell_mask`. -/
def meta_to_cell_mask (tq tk : ℚ) : Prop :=
  maskRat (is_meta tq) * maskRat (is_cell tk) > 1/2

instance (tq tk : ℚ) : Decidable (meta_to_cell_mask tq tk) := by
  unfold meta_to_cell_mask; infer_instance

/-- Entry (i, j) of `cell_to_meta_mask`. -/
def cell_to_meta_mask (tq tk : ℚ) : Prop :=
  maskRat (is_cell tq) * maskRat (is_meta tk) > 1/2

instance (tq tk : ℚ) : Decidable (cell_to_meta_mask tq tk) := by
  unfold cell_to_meta_mask; infer_instance

/-- Entry (i, j) of
`row_diff = torch.abs(row_ids.unsqueeze(-1) - row_ids.unsqueeze(1))`. -/
def row_diff (rq rk : ℚ) : ℚ := |rq - rk|

/-- Entry (i, j) of `col_diff`. -/
def col_diff (cq ck : ℚ) : ℚ := |cq - ck|

/-- Entry (i, j) of
`same_cell_mask = logical_and(row_diff + col_diff < 0.5, cell_mask)`. -/
def same_cell_mask (tq tk rq rk cq ck : ℚ) : Prop :=
  row_diff rq rk + col_diff cq ck < 1/2 ∧ cell_mask tq tk

instance (tq tk rq rk cq ck : ℚ) : Decidable (same_cell_mask tq tk rq rk cq ck) := by
  unfold same_cell_mask; infer_instance

/-- Entry (i, j) of `same_row_mask = logical_and(row_diff < 0.5, cell_mask)`. -/
def same_row_mask (tq tk rq rk : ℚ) : Prop :=
  row_diff rq rk < 1/2 ∧ cell_mask tq tk

instance (tq tk rq rk : ℚ) : Decidable (same_row_mask tq tk rq rk) := by
  unfold same_row_mask; infer_instance

/-- Entry (i, j) of `same_col_mask = logical_and(col_diff < 0.5, cell_mask)`. -/
def same_col_mask (tq tk cq ck : ℚ) : Prop :=
  col_diff cq ck < 1/2 ∧ cell_mask tq tk

instance (tq tk cq ck : ℚ) : Decidable (same_col_mask tq tk cq ck) := by
  unfold same_col_mask; infer_instance

/-- Entry (i, j) of the weighted mask sum `positional_buckets` of the source,
followed by `.long()` (the sum is already integral, so the cast is the
identity). -/
def bucketEntry (num_buckets : ℤ) (tq tk rq rk cq ck : ℚ) : ℤ :=
  (-1) * maskInt (meta_mask tq tk ∨ same_cell_mask tq tk rq rk cq ck)
  + (num_buckets - 5) * maskInt (meta_to_cell_mask tq tk)
  + (num_buckets - 4) * maskInt (cell_to_meta_mask tq tk)
  + (num_buckets - 3) * maskInt (same_row_mask tq tk rq rk
      ∧ ¬ same_cell_mask tq tk rq rk cq ck)
  + (num_buckets - 2) * maskInt (same_col_mask tq tk cq ck
      ∧ ¬ same_cell_mask tq tk rq rk cq ck)
  + (num_buckets - 1) * maskInt (cell_mask tq tk
      ∧ ¬ (same_col_mask tq tk cq ck ∨ same_row_mask tq tk rq rk))

/-- Shallow embedding of `compute_positional_bucket`.  The broadcasted mask
arithmetic of the source acts pointwise, so entry [b, i, j] of the result is
`bucketEntry` applied to the attributes of tokens i and j of batch item b.
`query_length` and `key_length` are accepted but, exactly as in the source,
never read. -/
def compute_positional_bucket (query_length key_length : ℤ)
    (type_ids row_ids col_ids : List (List ℚ)) (num_buckets : ℤ) :
    List (List (List ℤ)) :=
  List.zipWith3 (fun ts rs cs =>
    List.zipWith3 (fun tq rq cq =>
      List.zipWith3 (fun tk rk ck => bucketEntry num_buckets tq tk rq rk cq ck)
        ts rs cs)
      ts rs cs)
    type_ids row_ids col_ids

/-- Demonstration fixture of `main()`: `type_ids`. -/
def fixtureTypeIds : List (List ℚ) := [[1, 1, 2, 3, 3, 3, 3, 3]]

/-- Demonstration fixture of `main()`: `row_ids`. -/
def fixtureRowIds : List (List ℚ) := [[0, 0, 1, 2, 2, 2, 3, 3]]

/-- Demonstration fixture of `main()`: `col_ids`. -/
def fixtureColIds : List (List ℚ) := [[0, 0, 0, 0, 0, 1, 0, 1]]

/-- Demonstration fixture of `main()`: `expected_positional_buckets`. -/
def fixtureExpected : List (List (List ℤ)) := [[
  [-1, -1, -1, 95, 95, 95, 95, 95],
  [-1, -1, -1, 95, 95, 95, 95, 95],
  [-1, -1, -1, 95, 95, 95, 95, 95],
  [96, 96, 96, -1, -1, 97, 98, 99],
  [96, 96, 96, -1, -1, 97, 98, 99],
  [96, 96, 96, 97, 97, -1, 99, 98],
  [96, 96, 96, 98, 98, 99, -1, 97],
  [96, 96, 96, 99, 99, 98, 97, -1]]]

/-- Priority-branch label following the spec's words (§4.1 step 3): the
ordered conditional that the refinement claim asserts the arithmetic mask
sum implements for integer-valued attributes.  Written from the spec, for
comparison with `bucketEntry`. -/
def specBucket (num_buckets : ℤ) (tq tk rq rk cq ck : ℚ) : ℤ :=
  if (is_meta tq ∧ is_meta tk) ∨ (is_cell tq ∧ is_cell tk ∧ rq = rk ∧ cq = ck) then -1
  else if is_meta tq ∧ is_cell tk then num_buckets - 5
  else if is_cell tq ∧ is_meta tk then num_buckets - 4
  else if is_cell tq ∧ is_cell tk ∧ rq = rk then num_buckets - 3
  else if is_cell tq ∧ is_cell tk ∧ cq = ck then num_buckets - 2
  else if is_cell tq ∧ is_cell tk then num_buckets - 1
  else 0

/-- Spec-side batched classifier: the priority branching applied over the
same batch/position structure as `compute_positional_bucket`. -/
def specCompute (type_ids row_ids col_ids : List (List ℚ)) (num_buckets : ℤ) :
    List (List (List ℤ)) :=
  List.zipWith3 (fun ts rs cs =>
    List.zipWith3 (fun tq rq cq =>
      List.zipWith3 (fun tk rk ck => specBucket num_buckets tq tk rq rk cq ck)
        ts rs cs)
      ts rs cs)
    type_ids row_ids col_ids

/-- Every entry of a batched attribute tensor is integer-valued
(denominator one). -/
def IntValued (xs : List (List ℚ)) : Prop := ∀ s ∈ xs, ∀ v ∈ s, v.den = 1

instance : DecidablePred IntValued := fun xs => by unfold IntValued; infer_instance

lemma meta_mask_iff (tq tk : ℚ) : meta_mask tq tk ↔ is_meta tq ∧ is_meta tk := by
  unfold meta_mask maskRat
  by_cases h1 : is_meta tq <;> by_cases h2 : is_meta tk <;> simp [h1, h2] <;> norm_num

lemma cell_mask_iff (tq tk : ℚ) : cell_mask tq tk ↔ is_cell tq ∧ is_cell tk := by
  unfold cell_mask maskRat
  by_cases h1 : is_cell tq <;> by_cases h2 : is_cell tk <;> simp [h1, h2] <;> norm_num

lemma meta_to_cell_mask_iff (tq tk : ℚ) :
    meta_to_cell_mask tq tk ↔ is_meta tq ∧ is_cell tk := by
  unfold meta_to_cell_mask maskRat
  by_cases h1 : is_meta tq <;> by_cases h2 : is_cell tk <;> simp [h1, h2] <;> norm_num

lemma cell_to_meta_mask_iff (tq tk : ℚ) :
    cell_to_meta_mask tq tk ↔ is_cell tq ∧ is_meta tk := by
  unfold cell_to_meta_mask maskRat
  by_cases h1 : is_cell tq <;> by_cases h2 : is_meta tk <;> simp [h1, h2] <;> norm_num

lemma not_meta_and_cell (t : ℚ) : ¬ (is_meta t ∧ is_cell t) := by
  rintro ⟨⟨hlt, -⟩, hcell⟩
  rw [is_cell] at hcell
  rw [hcell] at hlt
  norm_num at hlt

lemma abs_sub_lt_half_iff {a b : ℚ} (ha : a.den = 1) (hb : b.den = 1) :
    |a - b| < 1/2 ↔ a = b := by
  obtain ⟨m, rfl⟩ : ∃ m : ℤ, a = (m : ℚ) := ⟨a.num, ((Rat.den_eq_one_iff a).mp ha).symm⟩
  obtain ⟨n, rfl⟩ : ∃ n : ℤ, b = (n : ℚ) := ⟨b.num, ((Rat.den_eq_one_iff b).mp hb).symm⟩
  rw [← Int.cast_sub, ← Int.cast_abs]
  constructor
  · intro h
    have h0 : ((|m - n| : ℤ) : ℚ) < 1 := lt_of_lt_of_le h (by norm_num)
    have h1 : |m - n| < 1 := by exact_mod_cast h0
    rw [abs_lt] at h1
    have h2 : m = n := by omega
    exact_mod_cast congrArg (Int.cast : ℤ → ℚ) h2
  · intro h
    have h2 : m = n := by exact_mod_cast h
    subst h2
    simp

lemma sum_abs_lt_half_iff {a b c d : ℚ} (ha : a.den = 1) (hb : b.den = 1)
    (hc : c.den = 1) (hd : d.den = 1) :
    |a - b| + |c - d| < 1/2 ↔ (a = b ∧ c = d) := by
  constructor
  · intro h
    have h1 : |a - b| < 1/2 := lt_of_le_of_lt (le_add_of_nonneg_right (abs_nonneg _)) h
    have h2 : |c - d| < 1/2 := lt_of_le_of_lt (le_add_of_nonneg_left (abs_nonneg _)) h
    exact ⟨(abs_sub_lt_half_iff ha hb).mp h1, (abs_sub_lt_half_iff hc hd).mp h2⟩
  · rintro ⟨rfl, rfl⟩
    simp

/-- Core pointwise refinement: for integer-valued row/column ids, the
weighted mask sum of the source equals the spec's priority branching. -/
lemma bucketEntry_eq_specBucket (nb : ℤ) (tq tk rq rk cq ck : ℚ)
    (hrq : rq.den = 1) (hrk : rk.den = 1) (hcq : cq.den = 1) (hck : ck.den = 1) :
    bucketEntry nb tq tk rq rk cq ck = specBucket nb tq tk rq rk cq ck := by
  have hex1 := not_meta_and_cell tq
  have hex2 := not_meta_and_cell tk
  have hrow : row_diff rq rk < 1/2 ↔ rq = rk := by
    rw [row_diff]; exact abs_sub_lt_half_iff hrq hrk
  have hcol : col_diff cq ck < 1/2 ↔ cq = ck := by
    rw [col_diff]; exact abs_sub_lt_half_iff hcq hck
  have hsum : row_diff rq rk + col_diff cq ck < 1/2 ↔ (rq = rk ∧ cq = ck) := by
    rw [row_diff, col_diff]; exact sum_abs_lt_half_iff hrq hrk hcq hck
  simp only [bucketEntry, specBucket, same_cell_mask, same_row_mask, same_col_mask,
    meta_mask_iff, cell_mask_iff, meta_to_cell_mask_iff, cell_to_meta_mask_iff,
    hrow, hcol, hsum]
  by_cases hMq : is_meta tq <;> by_cases hMk : is_meta tk <;>
    by_cases hCq : is_cell tq <;> by_cases hCk : is_cell tk <;>
    by_cases hR : rq = rk <;> by_cases hC : cq = ck <;>
    simp_all [maskInt]

lemma zipWith3_congr {α β γ δ : Type _} (f g : α → β → γ → δ) :
    ∀ (as : List α) (bs : List β) (cs : List γ),
      (∀ a ∈ as, ∀ b ∈ bs, ∀ c ∈ cs, f a b c = g a b c) →
      List.zipWith3 f as bs cs = List.zipWith3 g as bs cs
  | [], bs, cs, _ => by cases bs <;> cases cs <;> simp [List.zipWith3]
  | _ :: _, [], cs, _ => by cases cs <;> simp [List.zipWith3]
  | _ :: _, _ :: _, [], _ => by simp [List.zipWith3]
  | a :: as, b :: bs, c :: cs, h => by
    simp only [List.zipWith3]
    rw [h a (by simp) b (by simp) c (by simp),
      zipWith3_congr f g as bs cs
        (fun x hx y hy z hz => h x (by simp [hx]) y (by simp [hy]) z (by simp [hz]))]

/-- C1: for integer-valued attribute tensors and any integer `num_buckets`,
the arithmetic mask sum in the source is equivalent to the ordered
conditional of the spec: the output of `compute_positional_bucket`
coincides entrywise with the priority branching `specBucket` (batched as
`specCompute`). -/
theorem arithmetic_equals_priority (query_length key_length num_buckets : ℤ)
    (type_ids row_ids col_ids : List (List ℚ))
    (ht : IntValued type_ids) (hr : IntValued row_ids) (hc : IntValued col_ids) :
    compute_positional_bucket query_length key_length
        type_ids row_ids col_ids num_buckets
      = specCompute type_ids row_ids col_ids num_buckets := by
  unfold compute_positional_bucket specCompute
  apply zipWith3_congr
  intro ts _hts rs hrs cs hcs
  apply zipWith3_congr
  intro tq _htq rq hrq cq hcq
  apply zipWith3_congr
  intro tk _htk rk hrk ck hck
  exact bucketEntry_eq_specBucket _ _ _ _ _ _ _
    (hr rs hrs rq hrq) (hr rs hrs rk hrk) (hc cs hcs cq hcq) (hc cs hcs ck hck)

/-- Witness for C1 at the demonstration fixture of `main()`. -/
theorem arithmetic_equals_priority_witness :
    compute_positional_bucket 8 8 fixtureTypeIds fixtureRowIds fixtureColIds 100
      = specCompute fixtureTypeIds fixtureRowIds fixtureColIds 100 :=
  arithmetic_equals_priority 8 8 100 fixtureTypeIds fixtureRowIds fixtureColIds
    (by decide) (by decide) (by decide)

lemma mem_zipWith3 {α β γ δ : Type _} (f : α → β → γ → δ) :
    ∀ (as : List α) (bs : List β) (cs : List γ) (x : δ),
      x ∈ List.zipWith3 f as bs cs →
      ∃ a ∈ as, ∃ b ∈ bs, ∃ c ∈ cs, x = f a b c
  | [], bs, cs, x, h => by cases bs <;> cases cs <;> simp [List.zipWith3] at h
  | _ :: _, [], cs, x, h => by cases cs <;> simp [List.zipWith3] at h
  | _ :: _, _ :: _, [], x, h => by simp [List.zipWith3] at h
  | a :: as, b :: bs, c :: cs, x, h => by
    simp only [List.zipWith3] at h
    rcases List.mem_cons.mp h with h | h
    · exact ⟨a, List.mem_cons_self a as, b, List.mem_cons_self b bs,
        c, List.mem_cons_self c cs, h⟩
    · obtain ⟨a2, ha, b2, hb, c2, hc, hx⟩ := mem_zipWith3 f as bs cs x h
      exact ⟨a2, List.mem_cons_of_mem _ ha, b2, List.mem_cons_of_mem _ hb,
        c2, List.mem_cons_of_mem _ hc, hx⟩

lemma specBucket_mem (nb : ℤ) (tq tk rq rk cq ck : ℚ) :
    specBucket nb tq tk rq rk cq ck = -1 ∨ specBucket nb tq tk rq rk cq ck = 0 ∨
    specBucket nb tq tk rq rk cq ck = nb - 5 ∨ specBucket nb tq tk rq rk cq ck = nb - 4 ∨
    specBucket nb tq tk rq rk cq ck = nb - 3 ∨ specBucket nb tq tk rq rk cq ck = nb - 2 ∨
    specBucket nb tq tk rq rk cq ck = nb - 1 := by
  unfold specBucket
  split_ifs
  · exact Or.inl rfl
  · exact Or.inr (Or.inr (Or.inl rfl))
  · exact Or.inr (Or.inr (Or.inr (Or.inl rfl)))
  · exact Or.inr (Or.inr (Or.inr (Or.inr (Or.inl rfl))))
  · exact Or.inr (Or.inr (Or.inr (Or.inr (Or.inr (Or.inl rfl)))))
  · exact Or.inr (Or.inr (Or.inr (Or.inr (Or.inr (Or.inr rfl)))))
  · exact Or.inr (Or.inl rfl)

lemma specBucket_eq_zero {nb : ℤ} (hnb : 6 ≤ nb) (tq tk rq rk cq ck : ℚ)
    (h : specBucket nb tq tk rq rk cq ck = 0) :
    (¬ is_meta tq ∧ ¬ is_cell tq) ∨ (¬ is_meta tk ∧ ¬ is_cell tk) := by
  unfold specBucket at h
  split_ifs at h with h1 h2 h3 h4 h5 h6
  · omega
  · omega
  · omega
  · omega
  · omega
  · by_cases hMq : is_meta tq
    · exact Or.inr ⟨fun hMk => h1 (Or.inl ⟨hMq, hMk⟩), fun hCk => h2 ⟨hMq, hCk⟩⟩
    · by_cases hCq : is_cell tq
      · exact Or.inr ⟨fun hMk => h3 ⟨hCq, hMk⟩, fun hCk => h6 ⟨hCq, hCk⟩⟩
      · exact Or.inl ⟨hMq, hCq⟩

/-- C3: for integer-valued attributes and `num_buckets ≥ 6`, every entry of
the output lies in `{-1, 0, num_buckets-5, …, num_buckets-1}`, and an entry
is `0` only when at least one token of the pair is neither meta nor cell. -/
theorem output_value_range (query_length key_length num_buckets : ℤ)
    (hnb : 6 ≤ num_buckets) (type_ids row_ids col_ids : List (List ℚ))
    (ht : IntValued type_ids) (hr : IntValued row_ids) (hc : IntValued col_ids) :
    (∀ m ∈ compute_positional_bucket query_length key_length
          type_ids row_ids col_ids num_buckets, ∀ row ∈ m, ∀ x ∈ row,
        x = -1 ∨ x = 0 ∨ x = num_buckets - 5 ∨ x = num_buckets - 4 ∨
        x = num_buckets - 3 ∨ x = num_buckets - 2 ∨ x = num_buckets - 1) ∧
    (∀ tq tk rq rk cq ck : ℚ, rq.den = 1 → rk.den = 1 → cq.den = 1 → ck.den = 1 →
        bucketEntry num_buckets tq tk rq rk cq ck = 0 →
        (¬ is_meta tq ∧ ¬ is_cell tq) ∨ (¬ is_meta tk ∧ ¬ is_cell tk)) := by
  constructor
  · intro m hm row hrow x hx
    obtain ⟨ts, hts, rs, hrs, cs, hcs, rfl⟩ :=
      mem_zipWith3 _ type_ids row_ids col_ids m hm
    obtain ⟨tq, htq, rq, hrq, cq, hcq, rfl⟩ := mem_zipWith3 _ ts rs cs row hrow
    obtain ⟨tk, htk, rk, hrk, ck, hck, rfl⟩ := mem_zipWith3 _ ts rs cs x hx
    rw [bucketEntry_eq_specBucket num_buckets tq tk rq rk cq ck
      (hr rs hrs rq hrq) (hr rs hrs rk hrk) (hc cs hcs cq hcq) (hc cs hcs ck hck)]
    exact specBucket_mem num_buckets tq tk rq rk cq ck
  · intro tq tk rq rk cq ck h1 h2 h3 h4 h
    rw [bucketEntry_eq_specBucket num_buckets tq tk rq rk cq ck h1 h2 h3 h4] at h
    exact specBucket_eq_zero hnb tq tk rq rk cq ck h

/-- Witness for C3: a pair of a "neither" token (`type_id = 0`) and a cell
token gets entry 0, and the characterization applies to it. -/
theorem output_value_range_witness :
    (¬ is_meta 0 ∧ ¬ is_cell 0) ∨ (¬ is_meta 3 ∧ ¬ is_cell 3) :=
  (output_value_range 1 1 100 (by decide) [[0, 3]] [[0, 0]] [[0, 0]]
      (by decide) (by decide) (by decide)).2 0 3 0 0 0 0 rfl rfl rfl rfl
    (by norm_num [bucketEntry, maskInt, maskRat, meta_mask, cell_mask,
      meta_to_cell_mask, cell_to_meta_mask, same_cell_mask, same_row_mask,
      same_col_mask, row_diff, col_diff, is_meta, is_cell])

/-- C2: on the fixed fixture input (batch 1, eight tokens, `num_buckets = 100`,
`query_length = key_length = 8`), `compute_positional_bucket` returns exactly
the canonical 8×8 regression matrix. -/
theorem fixture_output_exact :
    compute_positional_bucket 8 8 fixtureTypeIds fixtureRowIds fixtureColIds 100
      = fixtureExpected := by
  norm_num [compute_positional_bucket, fixtureTypeIds, fixtureRowIds, fixtureColIds,
    fixtureExpected, List.zipWith3, bucketEntry, maskInt, maskRat,
    meta_mask, cell_mask, meta_to_cell_mask, cell_to_meta_mask,
    same_cell_mask, same_row_mask, same_col_mask, row_diff, col_diff,
    is_meta, is_cell]

lemma row_diff_comm (rq rk : ℚ) : row_diff rk rq = row_diff rq rk := by
  rw [row_diff, row_diff, abs_sub_comm]

lemma col_diff_comm (cq ck : ℚ) : col_diff ck cq = col_diff cq ck := by
  rw [col_diff, col_diff, abs_sub_comm]

/-- C4: the classification is symmetric in the pair except for the
directional meta/cell labels: if the pair (i, j) falls in the both-meta,
same-cell, same-row, same-col or unrelated-both-cell case then the entries
(i, j) and (j, i) are equal, while for i meta and j cell the entry (i, j)
is `num_buckets - 5` exactly when the entry (j, i) is `num_buckets - 4`. -/
theorem symmetry_except_directional (nb : ℤ) (tq tk rq rk cq ck : ℚ) :
    ((meta_mask tq tk ∨ same_cell_mask tq tk rq rk cq ck
        ∨ (same_row_mask tq tk rq rk ∧ ¬ same_cell_mask tq tk rq rk cq ck)
        ∨ (same_col_mask tq tk cq ck ∧ ¬ same_cell_mask tq tk rq rk cq ck)
        ∨ (cell_mask tq tk ∧ ¬ same_row_mask tq tk rq rk
            ∧ ¬ same_col_mask tq tk cq ck)) →
      bucketEntry nb tq tk rq rk cq ck = bucketEntry nb tk tq rk rq ck cq) ∧
    (is_meta tq ∧ is_cell tk →
      (bucketEntry nb tq tk rq rk cq ck = nb - 5 ↔
        bucketEntry nb tk tq rk rq ck cq = nb - 4)) := by
  have hex1 := not_meta_and_cell tq
  have hex2 := not_meta_and_cell tk
  constructor
  · intro hcase
    simp only [meta_mask_iff, cell_mask_iff, same_cell_mask, same_row_mask,
      same_col_mask] at hcase
    simp only [bucketEntry, meta_mask_iff, cell_mask_iff, meta_to_cell_mask_iff,
      cell_to_meta_mask_iff, same_cell_mask, same_row_mask, same_col_mask,
      row_diff_comm, col_diff_comm]
    by_cases hMq : is_meta tq <;> by_cases hMk : is_meta tk <;>
      by_cases hCq : is_cell tq <;> by_cases hCk : is_cell tk <;>
      by_cases hS : row_diff rq rk + col_diff cq ck < 1/2 <;>
      by_cases hRl : row_diff rq rk < 1/2 <;>
      by_cases hCl : col_diff cq ck < 1/2 <;>
      simp_all [maskInt]
  · rintro ⟨hm, hc⟩
    have h1 : ¬ is_cell tq := fun hh => hex1 ⟨hm, hh⟩
    have h2 : ¬ is_meta tk := fun hh => hex2 ⟨hh, hc⟩
    simp [bucketEntry, meta_mask_iff, cell_mask_iff, meta_to_cell_mask_iff,
      cell_to_meta_mask_iff, same_cell_mask, same_row_mask, same_col_mask,
      maskInt, hm, hc, h1, h2]

/-- Witness for C4 at a meta token (`type_id = 1`) and a cell token in
row 2, column 0, with `num_buckets = 100`. -/
theorem symmetry_except_directional_witness :
    bucketEntry 100 1 3 0 2 0 0 = 100 - 5 ↔ bucketEntry 100 3 1 2 0 0 0 = 100 - 4 :=
  (symmetry_except_directional 100 1 3 0 2 0 0).2
    ⟨by norm_num [is_meta], by norm_num [is_cell]⟩

/-- C7: a pair in which at least one token is neither meta nor cell (its
type id is outside (0.5, 2.5) and different from 3) gets label 0: none of
the masks fires and the arithmetic falls through to zero. -/
theorem neither_pair_zero (nb : ℤ) (tq tk rq rk cq ck : ℚ)
    (h : (¬ is_meta tq ∧ ¬ is_cell tq) ∨ (¬ is_meta tk ∧ ¬ is_cell tk)) :
    bucketEntry nb tq tk rq rk cq ck = 0 := by
  rcases h with ⟨h1, h2⟩ | ⟨h1, h2⟩ <;>
    simp [bucketEntry, meta_mask_iff, cell_mask_iff, meta_to_cell_mask_iff,
      cell_to_meta_mask_iff, same_cell_mask, same_row_mask, same_col_mask,
      maskInt, h1, h2]

/-- Witness for C7: a meta token paired with a token of type id 4, which is
neither meta nor cell. -/
theorem neither_pair_zero_witness : bucketEntry 100 1 4 0 0 0 0 = 0 :=
  neither_pair_zero 100 1 4 0 0 0 0
    (Or.inr ⟨by norm_num [is_meta], by norm_num [is_cell]⟩)

/-- C8: no token is classified as both metadata and cell: for every type id
the derived role predicates `is_meta` and `is_cell` are mutually exclusive. -/
theorem roles_mutually_exclusive (t : ℚ) : (is_meta t ∧ is_cell t) ↔ False :=
  iff_false_intro (not_meta_and_cell t)

/-- C5 counterexample: called with `query_length = 3` and `key_length = 5`
(mismatched, and disagreeing with the actual sequence length 2), the
function does not fail: it silently returns a fully formed output matrix. -/
theorem length_mismatch_no_failure :
    compute_positional_bucket 3 5 [[1, 3]] [[0, 0]] [[0, 0]] 10
      = [[[-1, 5], [6, -1]]] := by
  norm_num [compute_positional_bucket, List.zipWith3, bucketEntry, maskInt,
    maskRat, meta_mask, cell_mask, meta_to_cell_mask, cell_to_meta_mask,
    same_cell_mask, same_row_mask, same_col_mask, row_diff, col_diff,
    is_meta, is_cell]

/-- C5 amended: `compute_positional_bucket` performs no validation of the
length arguments: with `query_length ≠ key_length` it silently produces the
same output as the matching-length call, determined solely by the attribute
tensors. -/
theorem length_mismatch_silent (query_length key_length : ℤ)
    (h : query_length ≠ key_length) (type_ids row_ids col_ids : List (List ℚ))
    (num_buckets : ℤ) :
    compute_positional_bucket query_length key_length
        type_ids row_ids col_ids num_buckets
      = compute_positional_bucket key_length key_length
          type_ids row_ids col_ids num_buckets := rfl

/-- Witness for the amended C5 at the demonstration fixture with the
mismatched lengths 3 and 5. -/
theorem length_mismatch_silent_witness :
    compute_positional_bucket 3 5 fixtureTypeIds fixtureRowIds fixtureColIds 100
      = compute_positional_bucket 5 5 fixtureTypeIds fixtureRowIds fixtureColIds 100 :=
  length_mismatch_silent 3 5 (by decide) fixtureTypeIds fixtureRowIds fixtureColIds 100

/-- C6 counterexample: called with `num_buckets = 4 < 6`, the function does
not reject the configuration: it silently returns a matrix in which the
meta-to-cell label `4 - 5 = -1` collides with the `-1` sentinel and the
cell-to-meta label is `0`. -/
theorem small_num_buckets_no_failure :
    compute_positional_bucket 2 2 [[1, 3]] [[0, 0]] [[0, 0]] 4
      = [[[-1, -1], [0, -1]]] := by
  norm_num [compute_positional_bucket, List.zipWith3, bucketEntry, maskInt,
    maskRat, meta_mask, cell_mask, meta_to_cell_mask, cell_to_meta_mask,
    same_cell_mask, same_row_mask, same_col_mask, row_diff, col_diff,
    is_meta, is_cell]

/-- C6 amended: `compute_positional_bucket` performs no check on
`num_buckets`: for `num_buckets < 6` it silently computes labels from the
same formula, so a meta-to-cell pair receives the non-positive reserved
label `num_buckets - 5`, which overlaps the sentinel/default values. -/
theorem small_num_buckets_silent (num_buckets : ℤ) (h : num_buckets < 6)
    (tq tk rq rk cq ck : ℚ) (hm : is_meta tq) (hc : is_cell tk) :
    bucketEntry num_buckets tq tk rq rk cq ck = num_buckets - 5
      ∧ num_buckets - 5 ≤ 0 := by
  constructor
  · have h1 : ¬ is_cell tq := fun hh => not_meta_and_cell tq ⟨hm, hh⟩
    have h2 : ¬ is_meta tk := fun hh => not_meta_and_cell tk ⟨hh, hc⟩
    simp [bucketEntry, meta_mask_iff, cell_mask_iff, meta_to_cell_mask_iff,
      cell_to_meta_mask_iff, same_cell_mask, same_row_mask, same_col_mask,
      maskInt, hm, hc, h1, h2]
  · omega

/-- Witness for the amended C6 at `num_buckets = 4` with a meta token and a
cell token: the meta-to-cell label is `-1`, colliding with the sentinel. -/
theorem small_num_buckets_silent_witness :
    bucketEntry 4 1 3 0 0 0 0 = 4 - 5 ∧ (4 : ℤ) - 5 ≤ 0 :=
  small_num_buckets_silent 4 (by decide) 1 3 0 0 0 0
    (by norm_num [is_meta]) (by norm_num [is_cell])

lemma zipWith3_length_eq {α β γ δ : Type _} (f : α → β → γ → δ) :
    ∀ (as : List α) (bs : List β) (cs : List γ),
      bs.length = as.length → cs.length = as.length →
      (List.zipWith3 f as bs cs).length = as.length
  | [], bs, cs, _, _ => by cases bs <;> cases cs <;> simp [List.zipWith3]
  | _ :: _, [], _, hb, _ => by simp at hb
  | _ :: _, _ :: _, [], _, hc => by simp at hc
  | a :: as, b :: bs, c :: cs, hb, hc => by
    simp only [List.zipWith3, List.length_cons]
    rw [zipWith3_length_eq f as bs cs (by simpa using hb) (by simpa using hc)]

lemma map_zipWith3_const {α β γ δ ε : Type _} (F : α → β → γ → δ) (g : δ → ε) (k : ε)
    (h : ∀ a b c, g (F a b c) = k) :
    ∀ (as : List α) (bs : List β) (cs : List γ),
      bs.length = as.length → cs.length = as.length →
      (List.zipWith3 F as bs cs).map g = List.replicate as.length k
  | [], bs, cs, _, _ => by cases bs <;> cases cs <;> simp [List.zipWith3]
  | _ :: _, [], _, hb, _ => by simp at hb
  | _ :: _, _ :: _, [], _, hc => by simp at hc
  | a :: as, b :: bs, c :: cs, hb, hc => by
    simp only [List.zipWith3, List.map, List.length_cons, List.replicate_succ]
    rw [h a b c,
      map_zipWith3_const F g k h as bs cs (by simpa using hb) (by simpa using hc)]

lemma compute_shape (ql kl nb : ℤ) :
    ∀ (t r c : List (List ℚ)),
      r.map List.length = t.map List.length →
      c.map List.length = t.map List.length →
      (compute_positional_bucket ql kl t r c nb).map (fun m => m.map List.length)
        = t.map (fun s => List.replicate s.length s.length)
  | [], r, c, hr, hc => by
    have hr1 : r.map List.length = [] := by simpa using hr
    have hc1 : c.map List.length = [] := by simpa using hc
    have hr0 : r = [] := List.map_eq_nil.mp hr1
    have hc0 : c = [] := List.map_eq_nil.mp hc1
    subst hr0; subst hc0; rfl
  | s :: t, r, c, hr, hc => by
    cases r with
    | nil => simp at hr
    | cons rs r =>
      cases c with
      | nil => simp at hc
      | cons cs c =>
        simp only [List.map, List.cons.injEq] at hr hc
        obtain ⟨hr1, hr2⟩ := hr
        obtain ⟨hc1, hc2⟩ := hc
        have hhead := map_zipWith3_const
          (fun tq rq cq => List.zipWith3
            (fun tk rk ck => bucketEntry nb tq tk rq rk cq ck) s rs cs)
          List.length s.length
          (fun _ _ _ => zipWith3_length_eq _ s rs cs hr1 hc1) s rs cs hr1 hc1
        have htail := compute_shape ql kl nb t r c hr2 hc2
        simp only [compute_positional_bucket] at htail
        simp only [compute_positional_bucket, List.zipWith3, List.map]
        rw [hhead, htail]

/-- C9: the `query_length` and `key_length` arguments have no influence on
the result: two calls agreeing on the attribute tensors and `num_buckets`
return identical outputs whatever the length arguments are, and the output
shape (batch, seq, seq) is determined solely by the shape of the attribute
tensors. -/
theorem lengths_have_no_influence (ql kl ql2 kl2 num_buckets : ℤ)
    (type_ids row_ids col_ids : List (List ℚ))
    (hr : row_ids.map List.length = type_ids.map List.length)
    (hc : col_ids.map List.length = type_ids.map List.length) :
    compute_positional_bucket ql kl type_ids row_ids col_ids num_buckets
      = compute_positional_bucket ql2 kl2 type_ids row_ids col_ids num_buckets ∧
    (compute_positional_bucket ql kl type_ids row_ids col_ids num_buckets).length
      = type_ids.length ∧
    (compute_positional_bucket ql kl type_ids row_ids col_ids num_buckets).map
        (fun m => m.map List.length)
      = type_ids.map (fun s => List.replicate s.length s.length) :=
  ⟨rfl,
    zipWith3_length_eq _ type_ids row_ids col_ids
      (by simpa using congrArg List.length hr)
      (by simpa using congrArg List.length hc),
    compute_shape ql kl num_buckets type_ids row_ids col_ids hr hc⟩

/-- Witness for C9 at the demonstration fixture, with the arbitrary length
arguments 3, 5 and 7, 9. -/
theorem lengths_have_no_influence_witness :
    compute_positional_bucket 3 5 fixtureTypeIds fixtureRowIds fixtureColIds 100
      = compute_positional_bucket 7 9 fixtureTypeIds fixtureRowIds fixtureColIds 100 ∧
    (compute_positional_bucket 3 5 fixtureTypeIds fixtureRowIds fixtureColIds 100).length
      = fixtureTypeIds.length ∧
    (compute_positional_bucket 3 5 fixtureTypeIds fixtureRowIds fixtureColIds 100).map
        (fun m => m.map List.length)
      = fixtureTypeIds.map (fun s => List.replicate s.length s.length) :=
  lengths_have_no_influence 3 5 7 9 100 fixtureTypeIds fixtureRowIds fixtureColIds
    (by decide) (by decide)

/-- C10 counterexample: two cell tokens whose row and column ids both differ
by 1/5, a value strictly between 0 and 0.5.  Contrary to the claim, the
pair does satisfy the same-cell test (1/5 + 1/5 < 1/2), and the entry is
the sentinel `-1`, not `(num_buckets - 3) + (num_buckets - 2) = 195`. -/
theorem tolerance_overlap_counterexample :
    (0 : ℚ) < |(0 : ℚ) - 1/5| ∧ |(0 : ℚ) - 1/5| < 1/2 ∧
    same_cell_mask 3 3 0 (1/5) 0 (1/5) ∧
    bucketEntry 100 3 3 0 (1/5) 0 (1/5) = -1 ∧
    ¬ bucketEntry 100 3 3 0 (1/5) 0 (1/5) = (100 - 3) + (100 - 2) := by
  norm_num [same_cell_mask, cell_mask, maskRat, is_cell, row_diff, col_diff,
    bucketEntry, maskInt, meta_mask, meta_to_cell_mask, cell_to_meta_mask,
    same_row_mask, is_meta, abs_of_pos]

/-- C10 amended: row and column equality between cell tokens is decided by
tolerance tests, not exact equality: the same-row, same-col and same-cell
masks compare `|row diff| < 0.5`, `|col diff| < 0.5` and
`|row diff| + |col diff| < 0.5` respectively.  Consequently, for ids with
both absolute differences strictly between 0 and 0.5 whose SUM is at least
0.5, a cell pair satisfies same-row and same-col but not same-cell, and the
arithmetic sum yields `(num_buckets - 3) + (num_buckets - 2)`, outside the
documented label set. -/
theorem tolerance_semantics (nb : ℤ) (tq tk rq rk cq ck : ℚ) :
    (same_row_mask tq tk rq rk ↔ |rq - rk| < 1/2 ∧ cell_mask tq tk) ∧
    (same_col_mask tq tk cq ck ↔ |cq - ck| < 1/2 ∧ cell_mask tq tk) ∧
    (same_cell_mask tq tk rq rk cq ck ↔
      |rq - rk| + |cq - ck| < 1/2 ∧ cell_mask tq tk) ∧
    (is_cell tq → is_cell tk →
      0 < |rq - rk| → |rq - rk| < 1/2 → 0 < |cq - ck| → |cq - ck| < 1/2 →
      1/2 ≤ |rq - rk| + |cq - ck| →
      same_row_mask tq tk rq rk ∧ same_col_mask tq tk cq ck ∧
      ¬ same_cell_mask tq tk rq rk cq ck ∧
      bucketEntry nb tq tk rq rk cq ck = (nb - 3) + (nb - 2)) := by
  refine ⟨Iff.rfl, Iff.rfl, Iff.rfl, ?_⟩
  intro h1 h2 _h3 h4 _h5 h6 h7
  have hcell : cell_mask tq tk := (cell_mask_iff tq tk).mpr ⟨h1, h2⟩
  have hnm1 : ¬ is_meta tq := fun hh => not_meta_and_cell tq ⟨hh, h1⟩
  have hnm2 : ¬ is_meta tk := fun hh => not_meta_and_cell tk ⟨hh, h2⟩
  have hrow : same_row_mask tq tk rq rk := ⟨by rw [row_diff]; exact h4, hcell⟩
  have hcol : same_col_mask tq tk cq ck := ⟨by rw [col_diff]; exact h6, hcell⟩
  have hnc : ¬ same_cell_mask tq tk rq rk cq ck := by
    rintro ⟨hs, -⟩
    rw [row_diff, col_diff] at hs
    linarith
  refine ⟨hrow, hcol, hnc, ?_⟩
  simp [bucketEntry, meta_mask_iff, meta_to_cell_mask_iff, cell_to_meta_mask_iff,
    maskInt, hcell, hrow, hcol, hnc, hnm1, hnm2]

/-- Witness for the amended C10: cell tokens with row and column ids
differing by 3/10 each (both in (0, 0.5), sum 3/5 ≥ 0.5) receive the
out-of-range label 97 + 98 = 195 at `num_buckets = 100`. -/
theorem tolerance_semantics_witness :
    bucketEntry 100 3 3 0 (3/10) 0 (3/10) = (100 - 3) + (100 - 2) :=
  ((tolerance_semantics 100 3 3 0 (3/10) 0 (3/10)).2.2.2
    (by norm_num [is_cell]) (by norm_num [is_cell])
    (by norm_num [abs_of_pos]) (by norm_num [abs_of_pos])
    (by norm_num [abs_of_pos]) (by norm_num [abs_of_pos])
    (by norm_num [abs_of_pos])).2.2.2

end Lattice
